import Mathlib

/-!
Shallow embedding of the movie semantic-search application
(`app.py`, `services/dbpedia_service.py`, `services/dbpedia_reduced_service.py`,
`services/ontology_service.py`) together with proofs checking the
natural-language specification of the system against the code.

Python strings are modelled as `String` / `List Char`, Python `float` values
as `ℚ` (the literals exercised here are plain decimal literals, which `float`
represents exactly), Python `int` as `Int`, and fallible Python code as
`Except` / `Option`.
-/

set_option autoImplicit false

namespace SemanticSearch

/-- Truthiness of a Python optional string argument: `None` and the empty
string are falsy, every other string is truthy (`if actor:` in the source). -/
def py_truthy : Option String → Bool
  | none => false
  | some s => s ≠ ""

/-- Membership test `c in s` for a single character, as used by
`"-" in release_date` in the source. -/
def py_in (c : Char) (s : String) : Bool :=
  s.toList.contains c

/-- Split on a one-character separator, mirroring Python `str.split(sep)`:
the result is always non-empty and `"".split(sep) == [""]`. -/
def split_char (sep : Char) : List Char → List (List Char)
  | [] => [[]]
  | c :: rest =>
    if c = sep then [] :: split_char sep rest
    else
      match split_char sep rest with
      | [] => [[c]]
      | h :: t => (c :: h) :: t

/-- Leading segment of `s` before the first occurrence of `sep`:
Python `s.split(sep)[0]`. -/
def split_head (sep : Char) (s : String) : String :=
  String.mk ((split_char sep s.toList).headD s.toList)

/-- Replace every double-quote character of a list of characters by the given
escape sequence; model of Python `str.replace('"', esc)` where the pattern is
the one-character string `"`. -/
def replace_quote (esc : List Char) : List Char → List Char
  | [] => []
  | c :: rest =>
    if c = '"' then esc ++ replace_quote esc rest
    else c :: replace_quote esc rest

/-- Escaping applied by `DBpediaService.search_movies` (line 55):
`term.replace('"', '\\\\"')`, whose replacement is the three characters
backslash, backslash, double quote. -/
def escape_classic (s : String) : String :=
  String.mk (replace_quote ['\\', '\\', '"'] s.toList)

/-- Escaping applied by `DBpediaService.search_movies_semantic`
(lines 262, 273, 288, 318): `value.replace('"', '\\"')`, whose replacement is
the two characters backslash, double quote. -/
def escape_semantic (s : String) : String :=
  String.mk (replace_quote ['\\', '"'] s.toList)

/-- Scan the body of a SPARQL string literal and decide whether it contains a
double quote that is not preceded by an odd run of backslashes; such a quote
terminates the literal early.  The boolean argument records whether the
current position is escaped by the previous characters. -/
def unescaped_quote_scan : List Char → Bool → Bool
  | [], _ => false
  | c :: rest, esc =>
    if c = '\\' then unescaped_quote_scan rest (!esc)
    else if c = '"' then (if esc then unescaped_quote_scan rest false else true)
    else unescaped_quote_scan rest false

/-- True when the string, used as the body of a SPARQL double-quoted literal,
contains an unescaped double quote. -/
def has_unescaped_quote (s : String) : Bool :=
  unescaped_quote_scan s.toList false

/-! ## Result-row field normalization

The three normalizers (`DBpediaService.search_movies`,
`DBpediaService._run_sparql`, `DBpediaReducedService.search_movies`) share
the runtime and abstract post-processing but differ in year extraction. -/

/-- Year extraction of `DBpediaService._run_sparql` (line 461):
`release_date.split("-")[0] if release_date else "No disponible"`. -/
def run_sparql_year (release_date : String) : String :=
  if release_date = "" then "No disponible"
  else split_head '-' release_date

/-- Year extraction of `DBpediaService.search_movies` (lines 136-144):
for a non-empty date, the segment before the first `-` when the string
contains `-`, otherwise the string itself. -/
def classic_year (release_date : String) : String :=
  if release_date = "" then "No disponible"
  else if py_in '-' release_date then split_head '-' release_date
  else release_date

/-- Year extraction of `DBpediaReducedService.search_movies` (lines 526-538):
strings containing `T` or `-` keep the segment before the first `-`;
otherwise the first four characters when the length is at least 4, else the
whole string; the empty string gives the placeholder. -/
def reduced_search_year (release_date : String) : String :=
  if release_date = "" then "No disponible"
  else if py_in 'T' release_date then split_head '-' release_date
  else if py_in '-' release_date then split_head '-' release_date
  else if 4 ≤ release_date.length then release_date.take 4
  else release_date

/-- Numeric value of a list of decimal digit characters. -/
def digits_val (l : List Char) : Nat :=
  l.foldl (fun a c => a * 10 + (c.toNat - 48)) 0

/-- Decimal value with a signed mantissa and a count of fractional digits,
denoting the rational `mantissa / 10 ^ frac_digits`; the result shape of the
`float(...)` model below (the runtime literals the repository feeds to
`float` are plain decimal literals, which this represents exactly). -/
structure PyFloat where
  mantissa : Int
  frac_digits : Nat
deriving DecidableEq

/-- Rational value denoted by a parsed decimal. -/
def PyFloat.val (f : PyFloat) : ℚ :=
  (f.mantissa : ℚ) / ((10 : ℚ) ^ f.frac_digits)

/-- Model of Python `float(s)` on plain decimal literals: an optional sign
followed by digits with at most one decimal point and at least one digit.
Other strings (for which `float` raises, or exotic forms such as exponents
that the repository never produces) give `none`. -/
def parse_float (s : String) : Option PyFloat :=
  let signed : Bool × List Char :=
    match s.toList with
    | '-' :: r => (true, r)
    | '+' :: r => (false, r)
    | cs => (false, cs)
  match split_char '.' signed.2 with
  | [ip] =>
    if !ip.isEmpty && ip.all Char.isDigit then
      let m : Int := (digits_val ip : Int)
      some ⟨if signed.1 then -m else m, 0⟩
    else none
  | [ip, fp] =>
    if (!ip.isEmpty || !fp.isEmpty) && ip.all Char.isDigit && fp.all Char.isDigit then
      let m : Int := (digits_val ip * 10 ^ fp.length + digits_val fp : Int)
      some ⟨if signed.1 then -m else m, fp.length⟩
    else none
  | _ => none

/-- Model of Python `int(...)` on a float value: truncation toward zero. -/
def py_int (f : PyFloat) : Int :=
  Int.tdiv f.mantissa ((10 : Int) ^ f.frac_digits)

/-- Runtime normalization, identical at its four sites
(`DBpediaService.search_movies` lines 147-157, `DBpediaService._run_sparql`
lines 464-474, `DBpediaReducedService.search_movies` lines 541-550 and
`search_movies_semantic` lines 648-657): `int(float(runtime))`, floor-divided
by 60 when the truncated value exceeds 1000, rendered as `"<N> min"`;
parse failures and the empty string give the placeholder. -/
def normalize_runtime (runtime : String) : String :=
  if runtime = "" then "No disponible"
  else
    match parse_float runtime with
    | none => "No disponible"
    | some f =>
      let m := py_int f
      let m := if 1000 < m then m.fdiv 60 else m
      toString m ++ " min"

/-- Abstract truncation (line 132, line 456, line 554): texts longer than 300
characters are cut to 297 characters plus a three-character ellipsis. -/
def truncate_abstract (abstract : String) : String :=
  if 300 < abstract.length then abstract.take 297 ++ "..." else abstract

/-! ## Semantic query filter builder

`DBpediaService.search_movies_semantic` (lines 247-391) accumulates a list
`filters` of SPARQL clause strings, appending a block per populated filter in
the fixed order actor, director, year, genre, studio, and interpolates
`"\n".join(filters)` into the query template.  Each block below transcribes
the corresponding `if` block of the source. -/

/-- Clauses appended for the actor filter (lines 261-270). -/
def actor_filter_clauses (actor : Option String) (language : String) : List String :=
  if py_truthy actor then
    let actor_safe := escape_semantic (actor.getD "")
    [ (if language = "en" then "?actor rdfs:label \"" ++ actor_safe ++ "\"@en ."
       else "?actor rdfs:label \"" ++ actor_safe ++ "\"@" ++ language ++ " ."),
      "?film ?pActor ?actor .",
      "FILTER(?pActor IN (dbo:starring, dbo:castMember, dbp:starring, dbo:actor))" ]
  else []

/-- Clauses appended for the director filter (lines 272-281). -/
def director_filter_clauses (director : Option String) (language : String) : List String :=
  if py_truthy director then
    let director_safe := escape_semantic (director.getD "")
    [ (if language = "en" then "?dir rdfs:label \"" ++ director_safe ++ "\"@en ."
       else "?dir rdfs:label \"" ++ director_safe ++ "\"@" ++ language ++ " ."),
      "?film ?pDirector ?dir .",
      "FILTER(?pDirector IN (dbo:director, dbp:director, dbo:cinematography))" ]
  else []

/-- Clauses appended for the year filter (lines 283-285); the value is
interpolated without escaping. -/
def year_filter_clauses (year : Option String) : List String :=
  if py_truthy year then
    [ "?film dbo:releaseDate ?rd .",
      "FILTER( STRSTARTS(STR(?rd), \"" ++ year.getD "" ++ "\") )" ]
  else []

/-- Per-language genre property table (lines 289-294). -/
def genre_property_by_lang : List (String × String) :=
  [("en", "dbo:genre"), ("es", "prop-es:género"),
   ("fr", "prop-fr:genre"), ("de", "prop-de:genre")]

/-- Clauses appended for the genre filter (lines 287-315). -/
def genre_filter_clauses (genre : Option String) (language : String) : List String :=
  if py_truthy genre then
    let genre_safe := escape_semantic (genre.getD "")
    match genre_property_by_lang.lookup language with
    | some genre_prop =>
      ["?film " ++ genre_prop ++ " ?genreURI ."]
      ++ (if language = "en" then ["?genreURI rdfs:label ?genero ."]
          else ["BIND(?genreURI AS ?genero)"])
      ++ (if language = "en" then ["FILTER(lang(?genero) = \"en\")"]
          else ["FILTER(lang(?genero) = \"" ++ language ++ "\" || lang(?genero) = \"\" )"])
      ++ ["FILTER(regex(lcase(str(?genero)), lcase(\"" ++ genre_safe ++ "\"), \"i\"))"]
    | none =>
      [ "?film dbo:genre ?genreURI .",
        "?genreURI rdfs:label ?genero .",
        "FILTER(lang(?genero) = \"" ++ language ++ "\")",
        "FILTER(regex(lcase(str(?genero)), lcase(\"" ++ genre_safe ++ "\"), \"i\"))" ]
  else []

/-- Clauses appended for the studio filter (lines 317-326). -/
def studio_filter_clauses (studio : Option String) (language : String) : List String :=
  if py_truthy studio then
    let studio_safe := escape_semantic (studio.getD "")
    [ (if language = "en" then "?studio rdfs:label \"" ++ studio_safe ++ "\"@en ."
       else "?studio rdfs:label \"" ++ studio_safe ++ "\"@" ++ language ++ " ."),
      "?film ?pStudio ?studio .",
      "FILTER(?pStudio IN (dbp:company, dbo:distributor))" ]
  else []

/-- Full `filters` list built by `search_movies_semantic`: the five guarded
blocks appended in source order. -/
def search_movies_semantic_filters (actor director year genre studio : Option String)
    (language : String) : List String :=
  actor_filter_clauses actor language
    ++ director_filter_clauses director language
    ++ year_filter_clauses year
    ++ genre_filter_clauses genre language
    ++ studio_filter_clauses studio language

/-- Filter block interpolated into the query template (line 328). -/
def semantic_filter_block (actor director year genre studio : Option String)
    (language : String) : String :=
  String.intercalate "\n" (search_movies_semantic_filters actor director year genre studio language)

/-! ## Connectivity probe -/

/-- Connectivity probe `check_internet_connectivity` of `app.py`
(lines 27-44).  Each of the three endpoint attempts (httpbin with timeout 8,
Google with timeout 6, Cloudflare DNS with timeout 5) either raises
(modelled `none`) or returns a response with an HTTP status (`some status`).
The first attempt that does not raise among the first two decides via
`status == 200`; the third attempt returns `True` whenever it does not
raise, whatever the status. -/
def check_internet_connectivity (o1 o2 o3 : Option Nat) : Bool :=
  match o1 with
  | some status => status == 200
  | none =>
    match o2 with
    | some status => status == 200
    | none =>
      match o3 with
      | some _ => true
      | none => false

/-- Modelled from the spec: probe semantics as the specification sentence
states it, true exactly when some endpoint of the fallback chain responds
with HTTP status 200, false when all attempts fail. -/
def spec_probe (o1 o2 o3 : Option Nat) : Bool :=
  (o1 == some 200) || (o2 == some 200) || (o3 == some 200)

/-! ## Search pipeline of `app.py`

`api_search` and `semantic_search` are modelled parametrically in the record
shape `α` produced by the services (the route code never inspects the
records) and in the service functions themselves, so that "a service is
never invoked" is expressible as independence of the result from that
service function.  Responses carry exactly the fields the claims are about;
an `Except` error is a `(status, error-message)` JSON error response. -/

/-- Body of a successful search response: the three per-source lists are
returned separately, together with `total` and `online_mode`, mirroring the
`jsonify` dictionaries of `api_search` (lines 210-216) and `semantic_search`
(lines 292-307). -/
structure SearchResponse (α : Type) where
  local_results : List α
  external_results : List α
  reduced_results : List α
  total : Nat
  online_mode : Bool
deriving DecidableEq

/-- Classic search pipeline `api_search` of `app.py` (lines 191-219): an
empty term yields a 400 error; online mode queries only the external DBpedia
service, offline mode queries only the local ontology and the reduced
offline store. -/
def api_search (α : Type) (term : String) (is_online : Bool)
    (local_search external_search reduced_search : String → List α) :
    Except (Nat × String) (SearchResponse α) :=
  if term = "" then .error (400, "Término de búsqueda requerido")
  else
    let local_results := if is_online then [] else local_search term
    let external_results := if is_online then external_search term else []
    let reduced_results := if is_online then [] else reduced_search term
    .ok { local_results, external_results, reduced_results,
          total := local_results.length + external_results.length + reduced_results.length,
          online_mode := is_online }

/-- Methods defined by the class `OntologyService`
(`services/ontology_service.py`, 540 lines): the complete set of `def`
names in the class body. -/
def ontology_service_method_names : List String :=
  ["__init__", "_load_ontology", "search_movies", "get_movie_details",
   "get_stats", "get_debug_info", "_analyze_graph_content", "populate_from_dbpedia"]

/-- Message of the `AttributeError` raised when `semantic_search` accesses
the missing method (Python quoting of the two names is omitted here), as
serialized by `str(e)` into the error response body at line 311. -/
def attr_error_message : String :=
  "AttributeError: OntologyService object has no attribute search_movies_semantic"

/-- Semantic search pipeline `semantic_search` of `app.py` (lines 221-311).
An empty query or a query firing no intent yields a 400 error.  Online mode
queries only the external DBpedia service.  Offline mode resolves the
attribute `ontology_service.search_movies_semantic` at call time — modelled
by membership in the method table of `OntologyService` — and, since the
method does not exist, the branch raises `AttributeError`, which the
surrounding handler converts into a 500 response before the reduced store
is reached. -/
def semantic_search (α : Type) (query : String) (any_intent : Bool) (is_online : Bool)
    (external_semantic local_semantic reduced_semantic : Unit → List α) :
    Except (Nat × String) (SearchResponse α) :=
  if query = "" then .error (400, "Se requiere parámetro ?q")
  else if any_intent = false then
    .error (400, "No se pudo entender la intención de la consulta")
  else if is_online then
    let ext := external_semantic ()
    .ok { local_results := [], external_results := ext, reduced_results := [],
          total := ext.length, online_mode := true }
  else if ontology_service_method_names.contains "search_movies_semantic" then
    let l := local_semantic ()
    let r := reduced_semantic ()
    .ok { local_results := l, external_results := [], reduced_results := r,
          total := l.length + r.length, online_mode := false }
  else .error (500, attr_error_message)

/-- Modelled from the spec: the merge/dedup key of the cross-source merge
contract, "lowercased, trimmed title".  The pipeline code of `app.py`
contains no such merge; this definition exists only to compare the spec
against the code. -/
def norm_title_key (title : String) : String :=
  String.mk (((title.toList.dropWhile (· = ' ')).reverse.dropWhile (· = ' ')).reverse.map Char.toLower)

/-! ## SPARQL binding rows and the classic result normalizer

`DBpediaService.search_movies` (lines 123-179) iterates over
`results["results"]["bindings"]`; each row maps variable names to cells.  A
well-formed cell is a JSON object (a string-keyed dictionary with the
variable data under `"value"`); a malformed cell is anything else, on which
Python dictionary operations raise. -/

/-- Cell of a binding row: either a JSON object (field map) or a value of
some other shape, on which `.get` / `[...]` raise. -/
inductive BindingCell where
  | dict (fields : List (String × String))
  | nondict
deriving DecidableEq

/-- Binding row: an association of variable names to cells. -/
abbrev BindingRow := List (String × BindingCell)

/-- Python `b.get(key, {}).get("value", dflt)`: the default when the
variable is absent or the cell lacks `"value"`; raises (`AttributeError`)
when the stored cell is not a dictionary. -/
def get_get (b : BindingRow) (key dflt : String) : Except String String :=
  match b with
  | [] => .ok dflt
  | (k, c) :: rest =>
    if k = key then
      match c with
      | .dict fields => .ok ((fields.lookup "value").getD dflt)
      | .nondict => .error "AttributeError"
    else get_get rest key dflt

/-- Python `b[key]["value"]`: raises (`KeyError` or `TypeError`) when the
variable is absent, the cell is not a dictionary, or lacks `"value"`. -/
def index_value (b : BindingRow) (key : String) : Except String String :=
  match b with
  | [] => .error "KeyError"
  | (k, c) :: rest =>
    if k = key then
      match c with
      | .dict fields =>
        match fields.lookup "value" with
        | some v => .ok v
        | none => .error "KeyError"
      | .nondict => .error "TypeError"
    else index_value rest key

/-- Canonical movie record built by `DBpediaService.search_movies`
(lines 159-169). -/
structure ClassicMovie where
  titulo : String
  director : String
  sinopsis : String
  anio : String
  duracion : String
  uri : String
  fuente : String
  tipo : String
  idioma : String
deriving DecidableEq

/-- Normalization of one binding row by `DBpediaService.search_movies`
(lines 129-170): optional variables are read with `.get` chains and mapped
to placeholders when absent, while `titulo` and `pelicula` are read with
direct indexing. -/
def search_movies_normalize_row (language : String) (b : BindingRow) :
    Except String ClassicMovie := do
  let abstract0 ← get_get b "abstract" ""
  let abstract := truncate_abstract abstract0
  let release_date ← get_get b "releaseDate" ""
  let anio := classic_year release_date
  let runtime ← get_get b "runtime" ""
  let duracion := normalize_runtime runtime
  let titulo ← index_value b "titulo"
  let director ← get_get b "directorName" "Director no disponible"
  let uri ← index_value b "pelicula"
  .ok { titulo, director,
        sinopsis := if abstract = "" then "Sinopsis no disponible" else abstract,
        anio, duracion, uri,
        fuente := "DBpedia (" ++ language.toUpper ++ ")",
        tipo := "external", idioma := language }

/-- Row loop of `search_movies`: rows are normalized in order inside the
single `try` block; the first raising row aborts with `none`. -/
def normalize_rows (language : String) : List BindingRow → Option (List ClassicMovie)
  | [] => some []
  | b :: rest =>
    match search_movies_normalize_row language b with
    | .ok m => (normalize_rows language rest).map (fun l => m :: l)
    | .error _ => none

/-- Batch result of `search_movies` for a list of binding rows: the movie
list, or the empty list when any row raised, because the `except` handler
(lines 176-179) returns `[]` and discards the rows already processed. -/
def search_movies_results (language : String) (rows : List BindingRow) : List ClassicMovie :=
  (normalize_rows language rows).getD []

/-- True when the row binds `key` to a dictionary cell carrying a `value`
field (the shape a well-formed SPARQL JSON binding always has). -/
def bound_with_value (b : BindingRow) (key : String) : Bool :=
  match b with
  | [] => false
  | (k, c) :: rest =>
    if k = key then
      match c with
      | .dict fields => (fields.lookup "value").isSome
      | .nondict => false
    else bound_with_value rest key

/-- Well-formedness of a binding row for the classic normalizer: every cell
is a dictionary and the two variables read by direct indexing, `titulo` and
`pelicula`, are bound with a `value` field. -/
def row_wf (b : BindingRow) : Bool :=
  b.all (fun kv => match kv.2 with | .dict _ => true | .nondict => false)
  && bound_with_value b "titulo"
  && bound_with_value b "pelicula"

/-- Substring test used to state properties of generated SPARQL text. -/
def substr_in (pat s : String) : Bool :=
  decide (List.IsInfix pat.toList s.toList)

/-- Sample well-formed binding row: both required variables bound, all
optional variables absent. -/
def sample_good_row : BindingRow :=
  [("pelicula", .dict [("value", "uri1")]), ("titulo", .dict [("value", "Matrix")])]

/-- Sample malformed binding row: the `titulo` variable, read by direct
indexing in the normalizer, is absent. -/
def sample_bad_row : BindingRow :=
  [("pelicula", .dict [("value", "uri2")])]


lemma string_mk_toList (s : String) : String.mk s.toList = s := rfl

lemma split_char_not_mem (sep : Char) (l : List Char) (h : l.contains sep = false) :
    split_char sep l = [l] := by
  induction l with
  | nil => rfl
  | cons c rest ih =>
    simp only [List.contains_cons, Bool.or_eq_false_iff, beq_eq_false_iff_ne] at h
    obtain ⟨hcs, hrest⟩ := h
    unfold split_char
    rw [if_neg (fun hc => hcs hc.symm), ih (by simpa [List.contains] using hrest)]

/-- Claim C1: with exactly one of the five optional filters populated, the
clause list built by `search_movies_semantic` consists of exactly that
clause block; a `None` or empty filter contributes no clause; the builder
is a total function. -/
theorem C1_single_filter_clauses :
    ∀ (a d y g st : Option String) (lang : String),
      (py_truthy a = true → py_truthy d = false → py_truthy y = false →
          py_truthy g = false → py_truthy st = false →
        search_movies_semantic_filters a d y g st lang = actor_filter_clauses a lang)
      ∧ (py_truthy a = false → py_truthy d = true → py_truthy y = false →
          py_truthy g = false → py_truthy st = false →
        search_movies_semantic_filters a d y g st lang = director_filter_clauses d lang)
      ∧ (py_truthy a = false → py_truthy d = false → py_truthy y = true →
          py_truthy g = false → py_truthy st = false →
        search_movies_semantic_filters a d y g st lang = year_filter_clauses y)
      ∧ (py_truthy a = false → py_truthy d = false → py_truthy y = false →
          py_truthy g = true → py_truthy st = false →
        search_movies_semantic_filters a d y g st lang = genre_filter_clauses g lang)
      ∧ (py_truthy a = false → py_truthy d = false → py_truthy y = false →
          py_truthy g = false → py_truthy st = true →
        search_movies_semantic_filters a d y g st lang = studio_filter_clauses st lang)
      ∧ (py_truthy a = false → actor_filter_clauses a lang = [])
      ∧ (py_truthy d = false → director_filter_clauses d lang = [])
      ∧ (py_truthy y = false → year_filter_clauses y = [])
      ∧ (py_truthy g = false → genre_filter_clauses g lang = [])
      ∧ (py_truthy st = false → studio_filter_clauses st lang = []) := by
  intro a d y g st lang
  refine ⟨fun _ hd hy hg hst => ?_, fun ha _ hy hg hst => ?_, fun ha hd _ hg hst => ?_,
          fun ha hd hy _ hst => ?_, fun ha hd hy hg _ => ?_,
          fun ha => ?_, fun hd => ?_, fun hy => ?_, fun hg => ?_, fun hst => ?_⟩ <;>
    simp_all [search_movies_semantic_filters, actor_filter_clauses, director_filter_clauses,
      year_filter_clauses, genre_filter_clauses, studio_filter_clauses]

/-- Witness for C1 at a concrete single-filter input. -/
theorem C1_single_filter_clauses_witness :
    search_movies_semantic_filters (some "Tom Hanks") none none none none "es"
      = actor_filter_clauses (some "Tom Hanks") "es" :=
  (C1_single_filter_clauses (some "Tom Hanks") none none none none "es").1
    (by decide) (by decide) (by decide) (by decide) (by decide)

set_option maxRecDepth 8192 in
/-- Claim C2 counterexample: for actor filter `Tom Hanks` and language `es`,
the generated clause pins the label to the `@es` tag only, and no clause of
the filter block mentions `@en`; the claimed OR with English does not exist. -/
theorem C2_counterexample :
    (search_movies_semantic_filters (some "Tom Hanks") none none none none "es").head?
        = some "?actor rdfs:label \"Tom Hanks\"@es ."
      ∧ (search_movies_semantic_filters (some "Tom Hanks") none none none none "es").all
          (fun c => !(substr_in "@en" c)) = true := by decide

/-- Claim C2 amended: the person-label clause of the semantic query builder
asserts the label in exactly one language — `@en` when the target language
is English, otherwise `@<language>` alone, with no English alternative. -/
theorem C2_label_single_language :
    ∀ (p lang : String), p ≠ "" → lang ≠ "en" →
      (actor_filter_clauses (some p) lang).head?
          = some ("?actor rdfs:label \"" ++ escape_semantic p ++ "\"@" ++ lang ++ " .")
      ∧ (director_filter_clauses (some p) lang).head?
          = some ("?dir rdfs:label \"" ++ escape_semantic p ++ "\"@" ++ lang ++ " .")
      ∧ (actor_filter_clauses (some p) "en").head?
          = some ("?actor rdfs:label \"" ++ escape_semantic p ++ "\"@en .")
      ∧ (director_filter_clauses (some p) "en").head?
          = some ("?dir rdfs:label \"" ++ escape_semantic p ++ "\"@en .") := by
  intro p lang hp hl
  have ht : py_truthy (some p) = true := by simp [py_truthy, hp]
  refine ⟨?_, ?_, ?_, ?_⟩ <;>
    simp [actor_filter_clauses, director_filter_clauses, ht, hl]

/-- Witness for the amended C2 at a concrete input. -/
theorem C2_label_single_language_witness :
    (actor_filter_clauses (some "Tom Hanks") "es").head?
      = some ("?actor rdfs:label \"" ++ escape_semantic "Tom Hanks" ++ "\"@" ++ "es" ++ " .") :=
  (C2_label_single_language "Tom Hanks" "es" (by decide) (by decide)).1

/-- Claim C3 counterexample: the `_run_sparql` normalizer maps the dash-free
string `notadate` to the whole string, not to its first four characters. -/
theorem C3_counterexample :
    run_sparql_year "notadate" = "notadate" ∧ "notadate" ≠ "nota" := by decide

/-- Claim C3 amended: the reduced-service normalizer behaves exactly as the
claim describes, but the `_run_sparql` normalizer returns the segment before
the first dash for every non-empty string — a dash-free string is returned
whole, not cut to four characters — and the placeholder for the empty
string. -/
theorem C3_year_extraction :
    (∀ s : String, s ≠ "" → py_in '-' s = false → run_sparql_year s = s)
    ∧ run_sparql_year "" = "No disponible"
    ∧ run_sparql_year "1999-07-02T00:00:00" = "1999"
    ∧ run_sparql_year "2005-01-01" = "2005"
    ∧ reduced_search_year "1999-07-02T00:00:00" = "1999"
    ∧ reduced_search_year "2005-01-01" = "2005"
    ∧ reduced_search_year "" = "No disponible"
    ∧ reduced_search_year "notadate" = "nota" := by
  refine ⟨?_, by decide, by decide, by decide, by decide, by decide, by decide, by decide⟩
  intro s hs hdash
  unfold run_sparql_year split_head
  rw [if_neg hs, split_char_not_mem '-' s.toList (by simpa [py_in] using hdash)]
  rfl

/-- Witness for the amended C3 at a concrete input. -/
theorem C3_year_extraction_witness :
    run_sparql_year "notadate" = "notadate" :=
  C3_year_extraction.1 "notadate" (by decide) (by decide)


/-- Claim C4 counterexample: for the runtime literal `1000.5`, whose raw
numeric value exceeds 1000, the normalizer does not divide by 60 — the value
is truncated to 1000 first, which fails the threshold test. -/
theorem C4_counterexample :
    parse_float "1000.5" = some ⟨10005, 1⟩
    ∧ (1000 : ℚ) < PyFloat.val ⟨10005, 1⟩
    ∧ normalize_runtime "1000.5" = "1000 min"
    ∧ "1000 min" ≠ "16 min" := by
  refine ⟨by decide, ?_, by decide, by decide⟩
  norm_num [PyFloat.val]

/-- Claim C4 amended: the parsed value is first truncated toward zero to an
integer; that integer is floor-divided by 60 exactly when it exceeds 1000
and rendered as `"<N> min"`; unparseable strings give the placeholder. -/
theorem C4_duration_normalization :
    normalize_runtime "7200" = "120 min"
    ∧ normalize_runtime "90" = "90 min"
    ∧ normalize_runtime "abc" = "No disponible"
    ∧ (∀ (s : String) (f : PyFloat), parse_float s = some f → 1000 < py_int f →
        normalize_runtime s = toString ((py_int f).fdiv 60) ++ " min")
    ∧ (∀ (s : String) (f : PyFloat), parse_float s = some f → py_int f ≤ 1000 →
        normalize_runtime s = toString (py_int f) ++ " min") := by
  have hempty : parse_float "" = none := by decide
  refine ⟨by decide, by decide, by decide, ?_, ?_⟩
  · intro s f hparse hgt
    have hs : s ≠ "" := by rintro rfl; rw [hempty] at hparse; exact Option.noConfusion hparse
    unfold normalize_runtime
    rw [if_neg hs, hparse]
    simp [hgt]
  · intro s f hparse hle
    have hs : s ≠ "" := by rintro rfl; rw [hempty] at hparse; exact Option.noConfusion hparse
    unfold normalize_runtime
    rw [if_neg hs, hparse]
    simp [not_lt.mpr hle]

/-- Witness for the amended C4 at a concrete seconds-valued input. -/
theorem C4_duration_normalization_witness :
    normalize_runtime "7200" = toString ((py_int ⟨7200, 0⟩).fdiv 60) ++ " min" :=
  C4_duration_normalization.2.2.2.1 "7200" ⟨7200, 0⟩ (by decide) (by decide)

/-- Claim C5: evaluation of both escaping schemes at the failing input
`O"Brien`.  The classic path replaces the quote by backslash-backslash-quote,
leaving the quote itself unescaped (it closes the literal early); the
semantic path replaces it by backslash-quote, which is properly escaped. -/
theorem C5_classic_escape_unsafe :
    escape_classic "O\"Brien" = "O\\\\\"Brien"
    ∧ has_unescaped_quote (escape_classic "O\"Brien") = true
    ∧ escape_semantic "O\"Brien" = "O\\\"Brien"
    ∧ has_unescaped_quote (escape_semantic "O\"Brien") = false
    ∧ has_unescaped_quote "O\"Brien" = true := by decide

/-- Claim C6: evaluation of the semantic pipeline at the failing input — any
intent-bearing query while the connectivity probe reports offline.  The
missing `OntologyService.search_movies_semantic` raises before the reduced
store is reached: the outcome is the 500 error response, and the result does
not depend on the reduced-store service at all (zero calls), contradicting
the claim that local and reduced stores are queried when offline. -/
theorem C6_offline_semantic_skips_reduced :
    semantic_search Nat "peliculas de Tom Hanks" true false
        (fun _ => [7]) (fun _ => [8]) (fun _ => [9])
      = .error (500, attr_error_message)
    ∧ ∀ (r r' : Unit → List Nat),
        semantic_search Nat "peliculas de Tom Hanks" true false (fun _ => [7]) (fun _ => [8]) r
          = semantic_search Nat "peliculas de Tom Hanks" true false (fun _ => [7]) (fun _ => [8]) r' := by
  exact ⟨rfl, fun r r' => rfl⟩

/-- Claim C7 counterexample: two candidate lists whose titles agree up to
case and surrounding whitespace are both returned — the pipeline performs no
merge or deduplication, and the combined output has two entries, not one. -/
theorem C7_no_merge_counterexample :
    api_search String "Matrix" false (fun _ => ["Matrix"]) (fun _ => []) (fun _ => ["matrix "])
      = .ok { local_results := ["Matrix"], external_results := [],
              reduced_results := ["matrix "], total := 2, online_mode := false }
    ∧ norm_title_key "Matrix" = norm_title_key "matrix "
    ∧ (2 : Nat) ≠ 1 := by
  exact ⟨rfl, by decide, by decide⟩

/-- Claim C7 amended: the pipeline never merges or deduplicates — the three
per-source lists are returned verbatim in separate response fields, `total`
is the sum of their lengths, and the adaptive switch means at most one of
the local/external lists is ever non-empty. -/
theorem C7_no_merge :
    ∀ (α : Type) (term : String) (l e r : String → List α), term ≠ "" →
      api_search α term false l e r
        = .ok { local_results := l term, external_results := [],
                reduced_results := r term,
                total := (l term).length + (r term).length, online_mode := false }
      ∧ api_search α term true l e r
        = .ok { local_results := [], external_results := e term, reduced_results := [],
                total := (e term).length, online_mode := true } := by
  intro α term l e r hterm
  constructor <;> simp [api_search, hterm]

/-- Witness for the amended C7 at a concrete offline input. -/
theorem C7_no_merge_witness :
    api_search Nat "Matrix" false (fun _ => [1]) (fun _ => [2]) (fun _ => [3])
      = .ok { local_results := [1], external_results := [], reduced_results := [3],
              total := 2, online_mode := false } := by
  have h := (C7_no_merge Nat "Matrix" (fun _ => [1]) (fun _ => [2]) (fun _ => [3]) (by decide)).1
  simpa using h

/-- Claim C8 counterexample: the Cloudflare fallback returns true for any
non-raising response (here status 500), and a non-200 response from an
earlier endpoint stops the chain, so a later 200 is never consulted. -/
theorem C8_probe_counterexample :
    check_internet_connectivity none none (some 500) = true
    ∧ spec_probe none none (some 500) = false
    ∧ check_internet_connectivity (some 404) (some 200) (some 200) = false
    ∧ spec_probe (some 404) (some 200) (some 200) = true := by decide

/-- Claim C8 amended: the probe returns the `status == 200` test of the
first non-raising endpoint among the first two, ignoring the rest of the
chain; when both raise, it returns true exactly when the third request
completes at all, whatever its status; false only when all three raise. -/
theorem C8_probe_characterization :
    ∀ (o2 o3 : Option Nat) (s : Nat),
      check_internet_connectivity (some s) o2 o3 = (s == 200)
      ∧ check_internet_connectivity none (some s) o3 = (s == 200)
      ∧ check_internet_connectivity none none o3 = o3.isSome := by
  intro o2 o3 s
  refine ⟨rfl, rfl, ?_⟩
  cases o3 <;> rfl


lemma dict_cells_of_cons (kv : String × BindingCell) (rest : BindingRow)
    (h : (kv :: rest).all (fun kv => match kv.2 with | .dict _ => true | .nondict => false) = true) :
    (match kv.2 with | BindingCell.dict _ => true | BindingCell.nondict => false) = true
    ∧ rest.all (fun kv => match kv.2 with | .dict _ => true | .nondict => false) = true := by
  simpa using h

lemma get_get_ok_of_dicts (b : BindingRow) (key dflt : String)
    (h : b.all (fun kv => match kv.2 with | .dict _ => true | .nondict => false) = true) :
    ∃ v, get_get b key dflt = .ok v := by
  induction b with
  | nil => exact ⟨dflt, rfl⟩
  | cons kv rest ih =>
    obtain ⟨hkv, hrest⟩ := dict_cells_of_cons kv rest h
    obtain ⟨k, c⟩ := kv
    by_cases hk : k = key
    · cases c with
      | dict fields =>
        exact ⟨(fields.lookup "value").getD dflt, by simp [get_get, hk]⟩
      | nondict => simp at hkv
    · obtain ⟨v, hv⟩ := ih hrest
      exact ⟨v, by simp [get_get, hk, hv]⟩

lemma index_value_ok_of_bound (b : BindingRow) (key : String)
    (h : bound_with_value b key = true) :
    ∃ v, index_value b key = .ok v := by
  induction b with
  | nil => simp [bound_with_value] at h
  | cons kv rest ih =>
    obtain ⟨k, c⟩ := kv
    by_cases hk : k = key
    · cases c with
      | dict fields =>
        simp only [bound_with_value, if_pos hk] at h
        obtain ⟨v, hv⟩ := Option.isSome_iff_exists.mp h
        exact ⟨v, by simp [index_value, hk, hv]⟩
      | nondict => simp [bound_with_value, hk] at h
    · simp only [bound_with_value, if_neg hk] at h
      obtain ⟨v, hv⟩ := ih h
      exact ⟨v, by simp [index_value, hk, hv]⟩

lemma normalize_row_ok (language : String) (b : BindingRow) (h : row_wf b = true) :
    ∃ m, search_movies_normalize_row language b = .ok m := by
  have h3 := h
  rw [row_wf, Bool.and_eq_true, Bool.and_eq_true] at h3
  obtain ⟨⟨hdicts, htit⟩, hpel⟩ := h3
  obtain ⟨v1, h1⟩ := get_get_ok_of_dicts b "abstract" "" hdicts
  obtain ⟨v2, h2⟩ := get_get_ok_of_dicts b "releaseDate" "" hdicts
  obtain ⟨v3, hr3⟩ := get_get_ok_of_dicts b "runtime" "" hdicts
  obtain ⟨v4, h4⟩ := index_value_ok_of_bound b "titulo" htit
  obtain ⟨v5, h5⟩ := get_get_ok_of_dicts b "directorName" "Director no disponible" hdicts
  obtain ⟨v6, h6⟩ := index_value_ok_of_bound b "pelicula" hpel
  refine ⟨{ titulo := v4, director := v5,
            sinopsis := if truncate_abstract v1 = "" then "Sinopsis no disponible"
              else truncate_abstract v1,
            anio := classic_year v2, duracion := normalize_runtime v3, uri := v6,
            fuente := "DBpedia (" ++ language.toUpper ++ ")", tipo := "external",
            idioma := language }, ?_⟩
  rw [search_movies_normalize_row, h1, h2, hr3, h4, h5, h6]
  rfl

lemma normalize_rows_length (language : String) (rows : List BindingRow)
    (h : ∀ b ∈ rows, row_wf b = true) :
    ∃ l, normalize_rows language rows = some l ∧ l.length = rows.length := by
  induction rows with
  | nil => exact ⟨[], rfl, rfl⟩
  | cons b rest ih =>
    obtain ⟨m, hm⟩ := normalize_row_ok language b (h b (List.mem_cons_self b rest))
    obtain ⟨l, hl, hlen⟩ := ih (fun x hx => h x (List.mem_cons_of_mem b hx))
    refine ⟨m :: l, ?_, by simp [hlen]⟩
    rw [normalize_rows, hm, hl]
    rfl

/-- Claim C9 counterexample: a batch of one well-formed row followed by one
row missing the `titulo` variable is reduced to the empty list — the
exception aborts the whole batch, emitting zero records instead of one per
remaining row. -/
theorem C9_counterexample :
    search_movies_results "es" [sample_good_row, sample_bad_row] = []
    ∧ (search_movies_results "es" [sample_good_row, sample_bad_row]).length ≠ 2 := by
  exact ⟨rfl, by decide⟩

/-- Claim C9 amended: a row whose cells are all dictionaries and which binds
the two required variables never raises, and missing optional bindings are
replaced by the per-field placeholders — but a malformed row (missing
required variable or non-dictionary cell) raises, and the handler then
returns the empty list, aborting the entire batch rather than substituting
placeholders for that row alone. -/
theorem C9_normalizer_batch :
    (∀ (language : String) (rows : List BindingRow), (∀ b ∈ rows, row_wf b = true) →
      (search_movies_results language rows).length = rows.length)
    ∧ (∀ (language t u : String),
        search_movies_normalize_row language
            [("pelicula", .dict [("value", u)]), ("titulo", .dict [("value", t)])]
          = .ok { titulo := t, director := "Director no disponible",
                  sinopsis := "Sinopsis no disponible", anio := "No disponible",
                  duracion := "No disponible", uri := u,
                  fuente := "DBpedia (" ++ language.toUpper ++ ")",
                  tipo := "external", idioma := language }) := by
  constructor
  · intro language rows h
    obtain ⟨l, hl, hlen⟩ := normalize_rows_length language rows h
    rw [search_movies_results, hl]
    exact hlen
  · intro language t u
    rfl

/-- Witness for the amended C9 on a concrete well-formed batch. -/
theorem C9_normalizer_batch_witness :
    (search_movies_results "es" [sample_good_row]).length = 1 :=
  C9_normalizer_batch.1 "es" [sample_good_row] (by decide)

/-- Claim C10: `OntologyService` defines no method `search_movies_semantic`,
so every offline semantic query (non-empty, intent detected) ends in the 500
error response carrying the `AttributeError` message — offline semantic
search never returns local-ontology results. -/
theorem C10_missing_method_500 :
    ontology_service_method_names.contains "search_movies_semantic" = false
    ∧ (∀ (α : Type) (q : String) (e l r : Unit → List α), q ≠ "" →
        semantic_search α q true false e l r = .error (500, attr_error_message)) := by
  refine ⟨by decide, ?_⟩
  intro α q e l r hq
  rw [semantic_search, if_neg hq]
  rfl

/-- Witness for C10 at a concrete offline semantic query. -/
theorem C10_missing_method_500_witness :
    semantic_search Nat "peliculas de terror" true false
        (fun _ => [1]) (fun _ => [2]) (fun _ => [3])
      = .error (500, attr_error_message) :=
  C10_missing_method_500.2 Nat "peliculas de terror"
    (fun _ => [1]) (fun _ => [2]) (fun _ => [3]) (by decide)

end SemanticSearch
